import Mathlib

/-!
Verification of the reconciliation and classification engine of the
Swift trip-log dashboard (src/swift_trip_log_dashboard.py).

Shallow embedding conventions:
* Python strings are modelled as lists of characters (`Str`); `str.upper`
  is `upper`, `str.strip` is `trim`, the Python substring test `a in b`
  is `substr a b`.
* Dates (pandas timestamps reduced to their date part) are modelled as
  day ordinals (`Nat`); `str(date)` used when the code builds lookup keys
  is modelled as the decimal rendering `dateStr`.
* Missing values (pandas `NaN` / SQL `NULL`) are modelled as `none` of an
  `Option` type on the columns where the code tests for missing values.
* Numeric quantities (car counts, freight) are modelled as `Int`.
-/

/-- Python strings as lists of characters. -/
abbrev Str := List Char

/-- Python `str.upper()` (ASCII). -/
def upper (s : Str) : Str := s.map Char.toUpper

/-- Python `str.strip()`: drop leading and trailing whitespace. -/
def trim (s : Str) : Str :=
  ((s.dropWhile Char.isWhitespace).reverse.dropWhile Char.isWhitespace).reverse

/-- The `.str.upper().str.strip()` normalisation the dashboard applies to
lookup keys before comparison. -/
def norm (s : Str) : Str := trim (upper s)

/-- Python substring test: `substr needle hay` models `needle in hay`. -/
def substr (needle hay : Str) : Bool :=
  match hay with
  | [] => needle.isEmpty
  | _ :: t => needle.isPrefixOf hay || substr needle t

/-- Decimal digit characters of a natural number, most significant first;
the fuel argument makes the recursion structural. -/
def decDigitsAux : Nat → Nat → Str
  | 0, _ => []
  | fuel + 1, n =>
    if n < 10 then [Nat.digitChar n]
    else decDigitsAux fuel (n / 10) ++ [Nat.digitChar (n % 10)]

/-- Models Python `str(date)` on a day ordinal: the decimal rendering of
the ordinal (injective and free of the `'_'` separator character, which is
all the lookup-key construction in the code relies on). -/
def dateStr (n : Nat) : Str := decDigitsAux (n + 1) n

/-- Value of a decimal digit character. -/
def digitVal (c : Char) : Nat := c.toNat - 48

/-- Parse a decimal digit string back to a number (left fold). -/
def parseDec (s : Str) : Nat := s.foldl (fun a c => 10 * a + digitVal c) 0

/-! ### Gazetteer classifier: party aliases (`normalize_party_name`) -/

/-- The `market_load_parties` alias list of `normalize_party_name`. -/
def market_load_parties : List Str := ([
  "ALL INDIA TRPT.", "BALAJI CARGO CARRIER (INDIA)", "DOOR TO DOOR RELATIONS LOGISTICS",
  "GOLDEN TRANSPORT", "M.Y. TRANSPORT COMPANY PRIVATE LIMITED", "RAMESH CAR CARRIER",
  "SHRI OM LOGISTICS", "YATI TRANS LOGISTICS LLP"
  ] : List String).map String.data

/-- `normalize_party_name(party_name)`: map party-name variations to a single
standardised display name.  `none` models a pandas `NaN` input. -/
def normalize_party_name (partyName : Option Str) : Option Str :=
  match partyName with
  | none => none
  | some s =>
    if s = [] then some s
    else
      let partyUpper := trim (upper s)
      if partyUpper ∈ market_load_parties.map upper then some "Market Load".data
      else if partyUpper = "VALUEDRIVE TECHNOLOGIES PRIVATE LIMITED(SPINNY) UP".data then
        some "VALUEDRIVE TECHNOLOGIES PRIVATE LIMITED(SPINNY)".data
      else if substr "JOHN DEERE".data partyUpper then
        some "John Deere India Private Limited".data
      else some s

/-! ### Gazetteer classifier: client categories (`get_client_category`) -/

/-- `get_client_category(party_name)`: categorise clients into groups, an
ordered if/elif cascade of upper-case keyword substring tests. -/
def get_client_category (partyName : Option Str) : Str :=
  match partyName with
  | none => "Other".data
  | some s =>
    if s = [] then "Other".data
    else
      let u := upper s
      if substr "HONDA".data u || substr "TAPUKERA".data u then "Honda".data
      else if substr "MAHINDRA".data u || substr "M & M".data u || substr "M&M".data u ||
          substr "MSTC".data u || substr "TRAIN LOAD".data u || substr "NISAN".data u then
        "M & M".data
      else if substr "TOYOTA".data u || substr "TRANSYSTEM".data u ||
          substr "DC MOVEMENT".data u then "Toyota".data
      else if substr "SKODA".data u || substr "VOLKSWAGEN".data u then "Skoda".data
      else if substr "GLOVIS".data u then "Glovis".data
      else if substr "TATA".data u then "Tata".data
      else if substr "JOHN DEERE".data u then "John Deere".data
      else if substr "MARKET LOAD".data u then "Market Load".data
      else if substr "VALUEDRIVE".data u || substr "SPINNY".data u then "Spinny".data
      else if substr "JSW".data u || substr "MG MOTOR".data u then "JSW MG".data
      else if substr "R.SAI".data u || substr "RSAI".data u then "R.sai".data
      else if substr "MOHAN LOGISTICS".data u then "Mohan Logistics".data
      else if substr "SAI AUTO".data u then "SAI Auto".data
      else if substr "KWICK".data u then "Kwick".data
      else "Other".data

/-- The fixed category enumeration (every value `get_client_category` can return). -/
def categoryEnum : List Str := ([
  "Honda", "M & M", "Toyota", "Skoda", "Glovis", "Tata", "John Deere", "Market Load",
  "Spinny", "JSW MG", "R.sai", "Mohan Logistics", "SAI Auto", "Kwick", "Other"
  ] : List String).map String.data

/-- The category cascade as an ordered data table of (keywords, tag) rules,
written from the specification (each rule: one or more keywords, first
matching rule wins), for comparison with the source cascade. -/
def categoryRules : List (List Str × Str) := [
  (["HONDA", "TAPUKERA"].map String.data, "Honda".data),
  (["MAHINDRA", "M & M", "M&M", "MSTC", "TRAIN LOAD", "NISAN"].map String.data, "M & M".data),
  (["TOYOTA", "TRANSYSTEM", "DC MOVEMENT"].map String.data, "Toyota".data),
  (["SKODA", "VOLKSWAGEN"].map String.data, "Skoda".data),
  (["GLOVIS"].map String.data, "Glovis".data),
  (["TATA"].map String.data, "Tata".data),
  (["JOHN DEERE"].map String.data, "John Deere".data),
  (["MARKET LOAD"].map String.data, "Market Load".data),
  (["VALUEDRIVE", "SPINNY"].map String.data, "Spinny".data),
  (["JSW", "MG MOTOR"].map String.data, "JSW MG".data),
  (["R.SAI", "RSAI"].map String.data, "R.sai".data),
  (["MOHAN LOGISTICS"].map String.data, "Mohan Logistics".data),
  (["SAI AUTO"].map String.data, "SAI Auto".data),
  (["KWICK"].map String.data, "Kwick".data)]

/-- First-match-wins scan over an ordered rule table, default tag when no
rule matches (specification-side formulation of the classifier). -/
def scanRules : List (List Str × Str) → Str → Str
  | [], _ => "Other".data
  | (kws, tag) :: rest, u => if kws.any (fun k => substr k u) then tag else scanRules rest u

/-! ### Gazetteer classifier: zones (`get_zone`) -/

/-- North-zone gazetteer list of `get_zone`. -/
def north_cities : List Str := ([
  "DELHI", "NOIDA", "GURGAON", "GURUGRAM", "FARIDABAD", "GHAZIABAD", "GHAIZABAD", 
  "GREATER NOIDA", "CHANDIGARH", "MOHALI", "PANCHKULA", "LUDHIANA", "JALANDHAR", "JALLANDHAR", 
  "AMRITSAR", "PATIALA", "BATHINDA", "BHATINDA", "FIROZPUR", "FEROZEPUR", "HOSHIARPUR", 
  "MUKTSAR", "SANGRUR", "SONIPAT", "PANIPAT", "KARNAL", "KURUKSHETRA", "AMBALA", "HISAR", 
  "HISSAR", "ROHTAK", "BHIWANI", "SIRSA", "JIND", "KAITHAL", "REWARI", "NARNAUL", "BAHADURGARH", 
  "DHARUHERA", "DHARUHEDA", "MANESAR", "KUNDLI", "PALWAL", "NUH", "FARRUKHNAGAR", "FARUKHNAGAR", 
  "PIRTHLA", "SOHNA", "SHIMLA", "MANDI", "KANGRA", "KULLU", "SOLAN", "UNA", "HAMIRPUR", 
  "PAONTA SAHIB", "JAMMU", "SRINAGAR", "KATHUA", "PATHANKOT", "ROPAR", "RUPNAGAR", "KAPURTHALA", 
  "KALANWALI", "DEHRADUN", "HARIDWAR", "ROORKEE", "HALDWANI", "RUDRAPUR", "KASHIPUR", 
  "TAPUKERA", "ICAT MANESAR", "KHARKHODA", "BILASPUR (HR)", "YAMUNANAGAR", "BHIWADI", 
  "WAZIRPUR", "JAIPUR", "JODHPUR", "UDAIPUR", "KOTA", "AJMER", "BIKANER", "ALWAR", "BHILWARA", 
  "KANKROLI", "SIKAR", "SRIGANGANAGAR", "SRI GANGANAGAR", "BHARATPUR", "DAUSA", "JHUNJHUNU", 
  "CHITTORGARH", "TONK", "BANSWARA", "NAGAUR", "SAWAI MADHOPUR", "JHALAWAR", "NEEMUCH", 
  "LUCKNOW", "KANPUR", "AGRA", "VARANASI", "ALLAHABAD", "PRAYAGRAJ", "GORAKHPUR", "BAREILLY", 
  "ALIGARH", "MORADABAD", "MEERUT", "SAHARANPUR", "MATHURA", "FIROZABAD", "ETAWAH", "ETAH", 
  "MAINPURI", "SHAHJAHANPUR", "SAHANJANPUR", "SITAPUR", "HARDOI", "UNNAO", "RAE BAREILLY", 
  "RAEBARELI", "RAI BARELI", "SULTANPUR", "FAIZABAD", "AZAMGARH", "JAUNPUR", "MIRZAPUR", 
  "ROBERTSGANJ", "BASTI", "GONDA", "DEORIA", "BULANDSHAHAR", "BIJNOR", "MUZAFFARNAGAR", 
  "MUZAFFAR NAGAR", "NAJIBABAD", "LAKHIMPUR", "LAKHIMPUR KHERI", "ORAI", "JHANSI", 
  "FARRUKHABAD", "PRATAPGARH", "ABOHAR", "KUNDA", "KHURJA", "KARHAL", "KARHAL(UP)", 
  "KOTVA SARAK"
  ] : List String).map String.data

/-- East-zone gazetteer list of `get_zone`. -/
def east_cities : List Str := ([
  "KOLKATA", "HOWRAH", "SILIGURI", "ASANSOL", "DURGAPUR", "KHARAGPUR", "MALDA", "BARDHAMAN", 
  "BARDDHAMAN", "BARDHMAN", "BEHRAMPORE", "BERHAMPORE", "BEHRAMPUR", "COOCHBEHAR", "ALIPURDUAR", 
  "BUNIYADPUR", "MOGRA", "UPARNAGAR", "PATNA", "MUZAFFARPUR", "GAYA", "BHAGALPUR", "DARBHANGA", 
  "BEGUSARAI", "CHAPRA", "MOTIHARI", "PURNIA", "SAMASTIPUR", "BIHAR SHARIF", "SAHARSA", 
  "SHARSHA", "SIWAN", "GOPALGANJ", "GOPALGUNJ", "ARRAH", "ARAH", "AURANGABAD (BIHAR)", 
  "VAISHALI", "KISHANGANJ", "JAMALPUR", "ANISABAD", "ANISHABAD", "SHERGHATI", "RANCHI", 
  "JAMSHEDPUR", "DHANBAD", "BOKARO", "HAZARIBAGH", "HAZARIBAG", "DEOGHAR", "DEOGARH", 
  "DALTONGANJ", "BARHI(JH)", "GIRIDIH", "BHUBANESHWAR", "CUTTACK", "ROURKELA", "SAMBALPUR", 
  "BERHAMPUR", "BRAHMAPUR", "BALASORE", "PURI", "ANGUL", "PANIKOILI", "KEONJHAR", "JEYPORE", 
  "JAYPORE", "GUWAHATI", "TEZPUR", "DIBRUGARH", "JORHAT", "NAGAON", "BONGAIGAON", 
  "NORTH LAKHIMPUR", "SILCHAR", "SHILLONG", "GANGTOK", "DIMAPUR", "NAHARLAGUN", 
  "WEST CHAMPARAN", "AGARTALA", "IMPHAL", "PORT BLAIR", "RAIPUR", "BILASPUR", "BHILAI", "KORBA", 
  "RAJNANDGAON", "DURG", "JAGDALPUR", "AMBIKAPUR", "KANKER"
  ] : List String).map String.data

/-- West-zone gazetteer list of `get_zone`. -/
def west_cities : List Str := ([
  "MUMBAI", "PUNE", "NASHIK", "NAGPUR", "AURANGABAD", "AURNGABAD(MH)", 
  "AURANGABAD(MAHARASHTRA)", "SOLAPUR", "KOLHAPUR", "SANGLI", "SATARA", "AHMEDNAGAR", "THANE", 
  "NAVI MUMBAI", "BHIWANDI", "PANVEL", "PANWEL", "VASAI", "KALYAN", "RATNAGIRI", "LATUR", 
  "BEED", "JALGAON", "DHULE", "AKOLA", "AMRAVATI", "CHANDRAPUR", "CHANDERPUR", "MALEGAON", 
  "BARAMATI", "SANGAMNER", "RANJANGAON", "UDGIR", "NANDED", "AHMEDABAD", "SURAT", "VADODARA", 
  "RAJKOT", "BHAVNAGAR", "JAMNAGAR", "JUNAGADH", "GANDHIDHAM", "BHUJ", "ANAND", "MEHSANA", 
  "MORBI", "VAPI", "NAVSARI", "BHARUCH", "ANKLESHWAR", "GODHRA", "DAHOD", "HIMATNAGAR", 
  "HIMMATNAGAR", "SURENDRANAGAR", "PALANPUR", "SANAND", "BECHRAJI", "HALOL", "BARDOLI", 
  "CHHARODI", "AMBLI", "GANDHINAGAR", "DHOLERA", "PIPAVAV PORT", "KHEDA(GJ)", "GOA", "NUVEM", 
  "BHOPAL", "INDORE", "JABALPUR", "GWALIOR", "UJJAIN", "RATLAM", "DEWAS", "SAGAR", "SATNA", 
  "REWA", "KATNI", "CHHINDWARA", "CHINDWARA", "KHANDWA", "KHARGONE", "HOSHANGABAD", "SEHORE", 
  "VIDISHA", "SHAHDOL", "SEONI", "LAKHNADON", "SHIVPURI", "GUNA", "BIAORA", "SHUJALPUR", 
  "SUJALPUR", "CHHATARPUR", "MAHOBA", "WAIDHAN", "JHABUA", "JABHUA", "MAKSI", "MAKSI(MP)"
  ] : List String).map String.data

/-- South-zone gazetteer list of `get_zone`. -/
def south_cities : List Str := ([
  "BANGALORE", "MYSORE", "HUBLI", "BELGAUM", "BELGAON", "MANGALORE", "MANGLORE", "DAVANGERE", 
  "BELLARY", "TUMKUR", "SHIMOGA", "SIMOGA", "HASSAN", "UDUPI", "CHITRADURGA", "HOSPET", 
  "GULBARGA", "KALABURGI", "BIJAPUR", "RAICHUR", "CHIKMAGALUR", "CHIKKAMAGALURU", 
  "CHIKKABALLAPUR", "RAMANAGARA", "BIDADI", "HOSUR", "KADUR", "SINDHANUR", "YELLAPUR(KA)", 
  "TOYOTA BANGLORE", "HAROHALLI", "CHENNAI", "COIMBATORE", "MADURAI", "TRICHY", 
  "TIRUCHIRAPPALLI", "SALEM", "TIRUPUR", "ERODE", "VELLORE", "TIRUNELVELI", "NAGERCOIL", 
  "THANJAVUR", "CUDDALORE", "KANCHIPURAM", "PONDICHERRY", "PUDUCHERRY", "KARAIKUDI", "SRI CITY", 
  "CHENNAI PORT", "CHENNAI TI", "VILUPPURAM", "VERA VILPUR", "HYUNDAI", "RAMAPURAM", "KOCHI", 
  "COCHIN", "KOCHIN", "THIRUVANANTHAPURAM", "TRIVANDRUM", "KOZHIKODE", "CALICUT", "THRISSUR", 
  "TRISSUR", "KOLLAM", "ALAPPUZHA", "ALLEPPHY", "PALAKKAD", "PALLAKAD", "KANNUR", "KASARGOD", 
  "KOTTAYAM", "KOTTYAM", "PATHANAMTHITTA", "KAYAMKULAM", "MALAPPURAM", "MALLAPURAM", 
  "ERNAKULAM", "MUVATTUPUZHA", "HYDERABAD", "SECUNDERABAD", "VIJAYAWADA", "VISAKHAPATNAM", 
  "VISHAKHAPATNAM", "TIRUPATI", "GUNTUR", "NELLORE", "KURNOOL", "KADAPA", "ANANTAPUR", 
  "ANANTHPUR", "ONGOLE", "RAJAHMUNDRY", "KAKINADA", "BHIMAVARAM", "SRIKAKULAM", "ANAKAPALLI", 
  "KIA", "WARANGAL", "KARIMNAGAR", "NIZAMABAD", "KHAMMAM", "NALGONDA", "MAHBUBNAGAR", "NIRMAL", 
  "ZAHEERABAD", "ADONI"
  ] : List String).map String.data

/-- The zone-match test of `get_zone`: an entry matches when the entry is a
substring of the (upper-cased, trimmed) city or the city is a substring of
the entry.  A zone list matches when some entry matches. -/
def zoneAny (entries : List Str) (u : Str) : Bool :=
  entries.any (fun e => substr e u || substr u e)

/-- `get_zone(city)`: scan the North, East, West, South gazetteer lists in
that fixed order and return the first zone that matches, `Unknown` for a
missing or empty city, `Other` when no list matches. -/
def get_zone (city : Option Str) : Str :=
  match city with
  | none => "Unknown".data
  | some s =>
    if s = [] then "Unknown".data
    else
      let u := trim (upper s)
      if zoneAny north_cities u then "North".data
      else if zoneAny east_cities u then "East".data
      else if zoneAny west_cities u then "West".data
      else if zoneAny south_cities u then "South".data
      else "Other".data

/-! ### Vendor-to-client mapping (`get_vendor_client_mapping`) -/

/-- The direct billing-party to display-party dictionary of
`get_vendor_client_mapping`. -/
def vendor_mappings : List (Str × Str) := [
  ("R.sai Logistics India Pvt. Ltd.".data, "R.sai Logistics India Pvt. Ltd.".data),
  ("Kwick Living Private Limited".data, "Kwick Living Private Limited".data),
  ("SKODA AUTO VolkswagenIndia Pvt. Ltd - Pune".data, "SKODA AUTO VolkswagenIndia Pvt. Ltd - Pune".data),
  ("Glovis India Pvt Ltd - KIA".data, "Glovis India Pvt Ltd - KIA".data),
  ("Glovis India Pvt Ltd - Hyundai".data, "Glovis India Pvt Ltd - Hyundai".data),
  ("Honda Cars India Ltd - Tapukera".data, "Honda Cars India Ltd - Tapukera".data),
  ("Honda Cars India Ltd - Noida".data, "Honda Noida".data),
  ("Tata Motors Passenger Vehicles Limited - Pune".data, "Tata Motors Pvt Ltd - Pune".data),
  ("Tata Motors Passenger Vehicles Limited - Sanand".data, "Tata Motors Pvt Ltd - Sanand".data),
  ("Tata Passenger Electric Mobility Limited - Pune".data, "Tata Motors Pvt Ltd - Pune".data),
  ("JSW MG Motor India Private Limited".data, "JSW MG Motor India Private Limited".data),
  ("VALUEDRIVE TECHNOLOGIES PRIVATE LIMITED(SPINNY) BLR".data, "VALUEDRIVE TECHNOLOGIES PRIVATE LIMITED(SPINNY)".data),
  ("M/S Mohan Logistics Private  Limited".data, "M/S Mohan Logistics Private Limited".data),
  ("SAI AUTO COMPONENTS PVT.LTD".data, "SAI AUTO COMPONENTS PVT.LTD".data),
  ("John Deere india Private Limited".data, "John Deere India Private Limited".data),
  ("Glovis India Pvt Ltd - Pune".data, "Glovis India Pvt Ltd - Pune".data),
  ("shiv ansh logistics".data, "Market Load".data),
  ("Delhi Hubli Cargo Logistics Pvt. Ltd.".data, "Market Load".data)
]

/-- Python `dict.get(key, default)` on an association list. -/
def dictGet (d : List (Str × Str)) (k : Str) (dflt : Str) : Str :=
  match d with
  | [] => dflt
  | (a, b) :: rest => if k = a then b else dictGet rest k dflt

/-- `get_vendor_client_mapping(billing_party, origin)`: map a vendor billing
party to the client display name used by the summaries; `none` (Python
`None`) for a missing or empty billing party; the Mahindra billing party is
split by origin; any other unrecognised billing party defaults to
`Market Load`. -/
def get_vendor_client_mapping (billingParty : Option Str) (origin : Option Str) : Option Str :=
  match billingParty with
  | none => none
  | some bp =>
    if bp = [] then none
    else if bp = "MAHINDRA LOGISTICS LTD.".data then
      let originUpper := upper (trim (origin.getD []))
      if substr "CHAKAN".data originUpper then some "Mahindra Logistics Ltd - Chakan".data
      else if substr "NASHIK".data originUpper then some "Mahindra Logistics Ltd - Nashik".data
      else if substr "HARIDWAR".data originUpper then some "Mahindra Logistics Ltd - Haridwar".data
      else some "MAHINDRA LOGISTICS LTD".data
    else some (dictGet vendor_mappings bp "Market Load".data)

/-! ### Data model -/

/-- An own-fleet trip row (`swift_trip_log` after normalisation in `main`):
`loadingDate` is the day ordinal of the date part of `LoadingDate`;
`lrNos` and `displayParty` keep their possible-missing character
(`LRNos.isna()` / `DisplayParty.notna()` are tested by the code). -/
structure TripRow where
  tlhsNo : Str
  loadingDate : Nat
  vehicleNo : Str
  route : Str
  tripStatus : Str
  lrNos : Option Str
  displayParty : Option Str
  carQty : Int
  freight : Int
deriving DecidableEq, Repr

/-- A `cn_data` table row as seen by the pending-CN cross-check queries:
only the columns those queries read, each nullable as in the table. -/
structure CNRecord where
  cnDate : Option Nat
  vehicleNo : Option Str
  route : Option Str
  tlNo : Option Str
  vehicleType : Option Str
deriving DecidableEq, Repr

/-- A `vendor_df` row (`load_vendor_data` output): billing party, origin,
consignment date (`none` for an unparsable date), quantity and freight. -/
structure VendorRow where
  billingParty : Option Str
  origin : Option Str
  cnDate : Option Nat
  carQty : Int
  freight : Int
deriving DecidableEq, Repr

/-! ### Client-wise summary (`target_vs_actual_fragment`, lines 704-792) -/

/-- `DisplayParty != '' & DisplayParty.notna()`. -/
def partyPresent (p : Option Str) : Bool :=
  match p with
  | none => false
  | some s => !s.isEmpty

/-- The own-side period filter applied to both the current and the
comparison period: loading date in the inclusive range and a non-empty
display party. -/
def periodFilter (df : List TripRow) (a b : Nat) : List TripRow :=
  df.filter (fun t => decide (a ≤ t.loadingDate) && decide (t.loadingDate ≤ b) &&
    partyPresent t.displayParty)

/-- The vendor-side period filter: `CNDate >= start & CNDate < till + 1 day`
(a missing date fails both comparisons). -/
def vendorPeriod (vend : List VendorRow) (a b : Nat) : List VendorRow :=
  vend.filter (fun r =>
    match r.cnDate with
    | some d => decide (a ≤ d) && decide (d < b + 1)
    | none => false)

/-- The groupby keys of `groupby('DisplayParty')`: the distinct non-missing
display parties (pandas drops missing keys). -/
def ownKeys (rows : List TripRow) : List Str :=
  (rows.filterMap (·.displayParty)).dedup

/-- Own-side group count of `TLHSNo` for one party. -/
def countOwn (rows : List TripRow) (p : Str) : Int :=
  ((rows.filter (fun r => r.displayParty = some p)).length : Int)

/-- Own-side group sum of `CarQty` for one party. -/
def sumCars (rows : List TripRow) (p : Str) : Int :=
  ((rows.filter (fun r => r.displayParty = some p)).map (·.carQty)).sum

/-- Own-side group sum of `Freight` for one party. -/
def sumFreight (rows : List TripRow) (p : Str) : Int :=
  ((rows.filter (fun r => r.displayParty = some p)).map (·.freight)).sum

/-- The `MappedParty` computation followed by the `notna()` filter: each
vendor row keyed by `get_vendor_client_mapping(BillingParty, Origin)`,
rows that map to `None` dropped. -/
def mappedVendor (rows : List VendorRow) : List (Str × VendorRow) :=
  rows.filterMap (fun r =>
    (get_vendor_client_mapping r.billingParty r.origin).map (fun p => (p, r)))

/-- The groupby keys of `groupby('MappedParty')`. -/
def vendKeys (rows : List VendorRow) : List Str :=
  ((mappedVendor rows).map Prod.fst).dedup

/-- Vendor-side group sum of `CarQty` for one mapped party. -/
def vSumCars (rows : List VendorRow) (p : Str) : Int :=
  (((mappedVendor rows).filter (fun x => x.1 = p)).map (·.2.carQty)).sum

/-- Vendor-side group sum of `Freight` for one mapped party. -/
def vSumFreight (rows : List VendorRow) (p : Str) : Int :=
  (((mappedVendor rows).filter (fun x => x.1 = p)).map (·.2.freight)).sum

/-- A row of the client-wise `summary` frame (comparison columns included). -/
structure SummaryRow where
  party : Str
  trips : Int
  ownCars : Int
  ownFreight : Int
  vendCars : Int
  vendFreight : Int
  totalCars : Int
  totalFreight : Int
  cmpCars : Int
  cmpFreight : Int
deriving DecidableEq, Repr

/-- Lines 777-778: `Total_Cars = Own_Cars + Vendor_Cars` and
`Total_Freight = Own_Freight + Vendor_Freight`. -/
def totalize (r : SummaryRow) : SummaryRow :=
  { r with totalCars := r.ownCars + r.vendCars,
           totalFreight := r.ownFreight + r.vendFreight }

/-- Lines 723-778: own-side groupby, vendor-side groupby on the mapped
party, outer merge on the party (missing own-side and vendor-side values
filled with zero), then the totals.  The source guards the vendor merge
behind three non-emptiness tests; when the mapped vendor frame is empty the
merge is skipped and the vendor columns keep their initial zero, which
coincides with this formula because the vendor key list is then empty. -/
def buildSummary (own : List TripRow) (vend : List VendorRow) : List SummaryRow :=
  let vks := vendKeys vend
  let ownRows := (ownKeys own).map (fun p =>
    SummaryRow.mk p (countOwn own p) (sumCars own p) (sumFreight own p)
      (if p ∈ vks then vSumCars vend p else 0)
      (if p ∈ vks then vSumFreight vend p else 0) 0 0 0 0)
  let vendOnly := (vks.filter (fun p => !decide (p ∈ ownKeys own))).map (fun p =>
    SummaryRow.mk p 0 0 0 (vSumCars vend p) (vSumFreight vend p) 0 0 0 0)
  (ownRows ++ vendOnly).map totalize

/-- Lines 781-792: recompute the own-side grouping over the comparison rows
and attach `(Compare_Cars, Compare_Freight)` by a left party-name join,
missing values filled with zero; when the comparison frame is empty both
columns are set to zero. -/
def attachCompare (summary : List SummaryRow) (cmp : List TripRow) : List SummaryRow :=
  if cmp.isEmpty then
    summary.map (fun r => { r with cmpCars := 0, cmpFreight := 0 })
  else
    summary.map (fun r =>
      { r with cmpCars := if r.party ∈ ownKeys cmp then sumCars cmp r.party else 0,
               cmpFreight := if r.party ∈ ownKeys cmp then sumFreight cmp r.party else 0 })

/-- The client-wise summary pipeline of `target_vs_actual_fragment`:
period-filter the own and vendor rows, build the unified summary, then
attach the comparison columns computed over the caller-supplied comparison
date range. -/
def clientSummary (df : List TripRow) (vend : List VendorRow)
    (curStart curEnd cmpStart cmpEnd : Nat) : List SummaryRow :=
  attachCompare
    (buildSummary (periodFilter df curStart curEnd) (vendorPeriod vend curStart curEnd))
    (periodFilter df cmpStart cmpEnd)

/-! ### Pending-CN detection (`pending_cn_fragment`, lines 2122-2195) -/

/-- `(LRNos.isna()) | (LRNos == '') | (LRNos.str.strip() == '')`. -/
def blankLR (lr : Option Str) : Bool :=
  match lr with
  | none => true
  | some s => s.isEmpty || (trim s).isEmpty

/-- Lines 2131-2136, the candidate filter: status `Loaded`, blank LR
number, loading date on or before `D-3`, trip number not excluded. -/
def candidateFilter (today : Nat) (excluded : List Str) (t : TripRow) : Bool :=
  decide (t.tripStatus = "Loaded".data) && blankLR t.lrNos &&
    decide (t.loadingDate ≤ today - 3) && !decide (t.tlhsNo ∈ excluded)

/-- The method-1 lookup keys built from `cn_data`: for every record with a
date and a vehicle number, `str(cn_date) + '_' + vehicle_no.upper().strip()`. -/
def method1Keys (cns : List CNRecord) : List Str :=
  cns.filterMap (fun c =>
    c.cnDate.bind (fun d => c.vehicleNo.map (fun v => dateStr d ++ '_' :: norm v)))

/-- The method-1 lookup key of a pending trip:
`str(LoadingDateOnly) + '_' + VehicleNo.upper().strip()`. -/
def tripKey1 (t : TripRow) : Str := dateStr t.loadingDate ++ '_' :: norm t.vehicleNo

/-- The method-2 lookup keys built from `cn_data`: for every record with a
blank `tl_no`, vehicle type `Own Vehicle` and non-blank route and vehicle
number, `route.upper().strip() + '_' + vehicle_no.upper().strip()`. -/
def method2Keys (cns : List CNRecord) : List Str :=
  cns.filterMap (fun c =>
    c.route.bind (fun r => c.vehicleNo.bind (fun v =>
      if (c.tlNo = none ∨ c.tlNo = some []) ∧ c.vehicleType = some "Own Vehicle".data ∧
          r ≠ [] ∧ v ≠ [] then
        some (norm r ++ '_' :: norm v)
      else none)))

/-- The method-2 lookup key of a pending trip:
`Route.upper().strip() + '_' + VehicleNo.upper().strip()`. -/
def tripKey2 (t : TripRow) : Str := norm t.route ++ '_' :: norm t.vehicleNo

/-- Lines 2122-2195, the pending-CN computation: the candidate filter, then
(guarded by the non-emptiness tests of the source) the method-1 anti-join
on the date+vehicle key and the method-2 anti-join on the route+vehicle
key. -/
def pendingCN (trips : List TripRow) (cns : List CNRecord) (excluded : List Str)
    (today : Nat) : List TripRow :=
  let p0 := trips.filter (candidateFilter today excluded)
  if p0.isEmpty then p0
  else
    let k1 := method1Keys cns
    let p1 := if k1.isEmpty then p0 else p0.filter (fun t => !decide (tripKey1 t ∈ k1))
    let k2 := method2Keys cns
    if k2.isEmpty || p1.isEmpty then p1
    else p1.filter (fun t => !decide (tripKey2 t ∈ k2))

/-- Lines 543-554: restrict the frame to the selected month and, when a
specific party is selected (the sentinel `All` means no filter), to that
display party.  `pending_cn_fragment` runs on this filtered frame. -/
def monthPartyFilter (df : List TripRow) (monthStart monthEnd : Nat)
    (selectedParty : Str) : List TripRow :=
  let m := df.filter (fun t =>
    decide (monthStart ≤ t.loadingDate) && decide (t.loadingDate ≤ monthEnd))
  if selectedParty = "All".data then m
  else m.filter (fun t => t.displayParty = some selectedParty)

/-! ### Claim-side formulations (written from the specification's words) -/

/-- Claim C1's first anti-join condition, as the claim words it: the trip's
(loading date, upper-cased trimmed vehicle number) pair matches some
consignment record carrying a date and a vehicle number. -/
def claimMatch1 (cns : List CNRecord) (t : TripRow) : Prop :=
  ∃ c ∈ cns, c.cnDate = some t.loadingDate ∧
    c.vehicleNo.map norm = some (norm t.vehicleNo)

/-- Claim C1's second anti-join condition, as the claim words it: the
trip's (upper-cased trimmed route, vehicle number) pair matches some
consignment record whose linked trip-number field is null/blank and whose
vehicle-class tag is `Own Vehicle`. -/
def claimMatch2 (cns : List CNRecord) (t : TripRow) : Prop :=
  ∃ c ∈ cns, (c.tlNo = none ∨ c.tlNo = some []) ∧
    c.vehicleType = some "Own Vehicle".data ∧
    c.route.map norm = some (norm t.route) ∧
    c.vehicleNo.map norm = some (norm t.vehicleNo)

instance decClaimMatch1 (cns : List CNRecord) (t : TripRow) :
    Decidable (claimMatch1 cns t) := by
  unfold claimMatch1; infer_instance

instance decClaimMatch2 (cns : List CNRecord) (t : TripRow) :
    Decidable (claimMatch2 cns t) := by
  unfold claimMatch2; infer_instance

/-- The pending set exactly as claim C1 states it: the candidate set minus
the trips matched by `claimMatch1`, minus the trips matched by
`claimMatch2`. -/
def claimPending (trips : List TripRow) (cns : List CNRecord) (excluded : List Str)
    (today : Nat) : List TripRow :=
  trips.filter (fun t => candidateFilter today excluded t &&
    !decide (claimMatch1 cns t) && !decide (claimMatch2 cns t))

/-- The second anti-join condition amended to the source's record filter:
the consignment record must additionally have a non-blank route and a
non-blank vehicle number. -/
def specMatch2 (cns : List CNRecord) (t : TripRow) : Prop :=
  ∃ c ∈ cns, (c.tlNo = none ∨ c.tlNo = some []) ∧
    c.vehicleType = some "Own Vehicle".data ∧
    c.route ≠ some [] ∧ c.vehicleNo ≠ some [] ∧
    c.route.map norm = some (norm t.route) ∧
    c.vehicleNo.map norm = some (norm t.vehicleNo)

instance decSpecMatch2 (cns : List CNRecord) (t : TripRow) :
    Decidable (specMatch2 cns t) := by
  unfold specMatch2; infer_instance

/-- The pending set of the amended claim C1: the candidate set minus the
pair-matched trips of method 1, minus the pair-matched trips of the amended
method 2. -/
def specPending (trips : List TripRow) (cns : List CNRecord) (excluded : List Str)
    (today : Nat) : List TripRow :=
  trips.filter (fun t => candidateFilter today excluded t &&
    !decide (claimMatch1 cns t) && !decide (specMatch2 cns t))

/-- The alias keys of the fixed exact-match table that claim C7 attributes
to `normalize_party_name`: the market-load aliases, the Spinny alias and
the John Deere keyword. -/
def claimAliasKeys : List Str :=
  market_load_parties.map upper ++
    ["VALUEDRIVE TECHNOLOGIES PRIVATE LIMITED(SPINNY) UP".data, "JOHN DEERE".data]

/-! ### Decimal-rendering lemmas for the date part of the lookup keys -/

theorem digitVal_digitChar {d : Nat} (h : d < 10) : digitVal (Nat.digitChar d) = d := by
  have : ∀ x : Fin 10, digitVal (Nat.digitChar x.val) = x.val := by decide
  exact this ⟨d, h⟩

theorem digitChar_ne_underscore {d : Nat} (h : d < 10) : Nat.digitChar d ≠ '_' := by
  have : ∀ x : Fin 10, Nat.digitChar x.val ≠ '_' := by decide
  exact this ⟨d, h⟩

theorem parseDec_append_singleton (xs : Str) (c : Char) :
    parseDec (xs ++ [c]) = 10 * parseDec xs + digitVal c := by
  simp [parseDec, List.foldl_append]

theorem parseDec_decDigitsAux {fuel n : Nat} (h : n ≤ fuel) :
    parseDec (decDigitsAux fuel n) = n := by
  induction fuel generalizing n with
  | zero =>
    have hn : n = 0 := Nat.le_zero.mp h
    subst hn
    simp [decDigitsAux, parseDec]
  | succ fuel ih =>
    by_cases h10 : n < 10
    · simp [decDigitsAux, h10, parseDec, digitVal_digitChar h10]
    · have hdiv : n / 10 ≤ fuel := by
        have := Nat.div_lt_self (by omega : 0 < n) (by omega : 1 < 10)
        omega
      rw [decDigitsAux]
      simp only [h10, if_false]
      rw [parseDec_append_singleton, ih hdiv,
        digitVal_digitChar (Nat.mod_lt _ (by omega))]
      omega

theorem dateStr_injective {m n : Nat} (h : dateStr m = dateStr n) : m = n := by
  have hm := parseDec_decDigitsAux (Nat.le_succ m)
  have hn := parseDec_decDigitsAux (Nat.le_succ n)
  rw [dateStr] at h
  rw [dateStr] at h
  rw [← hm, ← hn, h]

theorem underscore_not_mem_decDigitsAux (fuel n : Nat) : '_' ∉ decDigitsAux fuel n := by
  induction fuel generalizing n with
  | zero => simp [decDigitsAux]
  | succ fuel ih =>
    by_cases h10 : n < 10
    · simp only [decDigitsAux, h10, if_true, List.mem_singleton]
      exact fun hc => digitChar_ne_underscore h10 hc.symm
    · simp only [decDigitsAux, h10, if_false, List.mem_append, List.mem_singleton]
      rintro (hc | hc)
      · exact ih _ hc
      · exact digitChar_ne_underscore (Nat.mod_lt _ (by omega)) hc.symm

theorem underscore_not_mem_dateStr (n : Nat) : '_' ∉ dateStr n :=
  underscore_not_mem_decDigitsAux _ _

/-- Splitting a concatenated key at the separator is unambiguous when
neither left part contains the separator. -/
theorem key_split {a b v w : Str} (ha : '_' ∉ a) (hb : '_' ∉ b)
    (h : a ++ '_' :: v = b ++ '_' :: w) : a = b ∧ v = w := by
  induction a generalizing b with
  | nil =>
    cases b with
    | nil => simpa using h
    | cons c b' =>
      exfalso
      simp only [List.nil_append, List.cons_append, List.cons.injEq] at h
      exact hb (h.1 ▸ List.mem_cons_self c b')
  | cons c a' ih =>
    cases b with
    | nil =>
      exfalso
      simp only [List.cons_append, List.nil_append, List.cons.injEq] at h
      exact ha (h.1 ▸ List.mem_cons_self c a')
    | cons d b' =>
      simp only [List.cons_append, List.cons.injEq] at h
      obtain ⟨hcd, htail⟩ := h
      have ha' : '_' ∉ a' := fun hx => ha (List.mem_cons_of_mem _ hx)
      have hb' : '_' ∉ b' := fun hx => hb (List.mem_cons_of_mem _ hx)
      obtain ⟨h1, h2⟩ := ih ha' hb' htail
      exact ⟨by rw [hcd, h1], h2⟩

/-! ### Pending-CN lemmas -/

/-- The non-emptiness guards in `pending_cn_fragment` are semantically
transparent: the pending computation is the candidate filter followed by
the two anti-join filters. -/
theorem pendingCN_eq (trips : List TripRow) (cns : List CNRecord) (excluded : List Str)
    (today : Nat) :
    pendingCN trips cns excluded today =
      ((trips.filter (candidateFilter today excluded)).filter
          (fun t => !decide (tripKey1 t ∈ method1Keys cns))).filter
        (fun t => !decide (tripKey2 t ∈ method2Keys cns)) := by
  unfold pendingCN
  dsimp only
  by_cases h0 : (trips.filter (candidateFilter today excluded)).isEmpty
  · rw [if_pos h0]
    rw [List.isEmpty_iff] at h0
    rw [h0]
    simp
  · rw [if_neg h0]
    have hp1 : (if (method1Keys cns).isEmpty then trips.filter (candidateFilter today excluded)
        else (trips.filter (candidateFilter today excluded)).filter
          (fun t => !decide (tripKey1 t ∈ method1Keys cns))) =
        (trips.filter (candidateFilter today excluded)).filter
          (fun t => !decide (tripKey1 t ∈ method1Keys cns)) := by
      by_cases h1 : (method1Keys cns).isEmpty
      · rw [if_pos h1]
        rw [List.isEmpty_iff] at h1
        rw [eq_comm, List.filter_eq_self]
        intro a _
        simp [h1]
      · rw [if_neg h1]
    rw [hp1]
    by_cases h2 : (method2Keys cns).isEmpty
    · rw [List.isEmpty_iff] at h2
      simp only [h2, List.isEmpty_nil, Bool.true_or, if_true]
      rw [eq_comm, List.filter_eq_self]
      intro a _
      simp
    · by_cases h3 : ((trips.filter (candidateFilter today excluded)).filter
          (fun t => !decide (tripKey1 t ∈ method1Keys cns))).isEmpty
      · rw [if_pos (by rw [h3]; exact Bool.or_true _)]
        rw [List.isEmpty_iff] at h3
        rw [h3]
        simp
      · rw [if_neg ?_]
        rw [Bool.or_eq_true]
        rintro (h | h)
        · exact h2 h
        · exact h3 h

/-- The method-1 concatenated-key lookup coincides with the pair match of
claim C1: the decimal date rendering never contains the separator, so the
key decomposes uniquely. -/
theorem mem_method1_iff (cns : List CNRecord) (t : TripRow) :
    tripKey1 t ∈ method1Keys cns ↔ claimMatch1 cns t := by
  unfold method1Keys claimMatch1 tripKey1
  rw [List.mem_filterMap]
  constructor
  · rintro ⟨c, hc, hkey⟩
    rw [Option.bind_eq_some] at hkey
    obtain ⟨d, hd, hkey⟩ := hkey
    rw [Option.map_eq_some'] at hkey
    obtain ⟨v, hv, hkey⟩ := hkey
    obtain ⟨h1, h2⟩ := key_split (underscore_not_mem_dateStr d)
      (underscore_not_mem_dateStr t.loadingDate) hkey
    exact ⟨c, hc, by rw [hd, dateStr_injective h1], by rw [hv, Option.map_some', h2]⟩
  · rintro ⟨c, hc, hdate, hveh⟩
    rw [Option.map_eq_some'] at hveh
    obtain ⟨v, hv, hnorm⟩ := hveh
    refine ⟨c, hc, ?_⟩
    rw [hdate, hv, Option.some_bind, Option.map_some', hnorm]

/-- The method-2 concatenated-key lookup coincides with the amended pair
match of claim C1 as long as no normalised route contains the separator
character. -/
theorem mem_method2_iff (cns : List CNRecord) (t : TripRow)
    (hR : '_' ∉ norm t.route)
    (hC : ∀ c ∈ cns, ∀ r, c.route = some r → '_' ∉ norm r) :
    tripKey2 t ∈ method2Keys cns ↔ specMatch2 cns t := by
  unfold method2Keys specMatch2 tripKey2
  rw [List.mem_filterMap]
  constructor
  · rintro ⟨c, hc, hkey⟩
    rw [Option.bind_eq_some] at hkey
    obtain ⟨r, hr, hkey⟩ := hkey
    rw [Option.bind_eq_some] at hkey
    obtain ⟨v, hv, hkey⟩ := hkey
    have hcond : (c.tlNo = none ∨ c.tlNo = some []) ∧
        c.vehicleType = some "Own Vehicle".data ∧ r ≠ [] ∧ v ≠ [] := by
      by_contra hcond
      rw [if_neg hcond] at hkey
      exact Option.noConfusion hkey
    obtain ⟨htl, hvt, hrne, hvne⟩ := hcond
    rw [if_pos ⟨htl, hvt, hrne, hvne⟩, Option.some.injEq] at hkey
    obtain ⟨h1, h2⟩ := key_split (hC c hc r hr) hR hkey
    refine ⟨c, hc, htl, hvt, ?_, ?_, ?_, ?_⟩
    · rw [hr]; intro hs; exact hrne (Option.some.inj hs)
    · rw [hv]; intro hs; exact hvne (Option.some.inj hs)
    · rw [hr, Option.map_some', h1]
    · rw [hv, Option.map_some', h2]
  · rintro ⟨c, hc, htl, hvt, hrb, hvb, hroute, hveh⟩
    rw [Option.map_eq_some'] at hroute hveh
    obtain ⟨r, hr, hrn⟩ := hroute
    obtain ⟨v, hv, hvn⟩ := hveh
    refine ⟨c, hc, ?_⟩
    rw [hr, hv, Option.some_bind, Option.some_bind, if_pos, hrn, hvn]
    refine ⟨htl, hvt, ?_, ?_⟩
    · intro he; exact hrb (by rw [hr, he])
    · intro he; exact hvb (by rw [hv, he])

/-- Adding a trip number to the exclusion list strengthens the candidate
filter by exactly the new-number test. -/
theorem candidateFilter_cons (today : Nat) (t : Str) (E : List Str) (x : TripRow) :
    candidateFilter today (t :: E) x =
      (candidateFilter today E x && !decide (x.tlhsNo = t)) := by
  unfold candidateFilter
  have hmem : decide (x.tlhsNo ∈ t :: E) =
      (decide (x.tlhsNo = t) || decide (x.tlhsNo ∈ E)) := by
    simp [List.mem_cons]
  rw [hmem, Bool.not_or]
  cases decide (x.tripStatus = "Loaded".data) <;> cases blankLR x.lrNos <;>
    cases decide (x.loadingDate ≤ today - 3) <;> cases decide (x.tlhsNo = t) <;>
    cases decide (x.tlhsNo ∈ E) <;> rfl

/-! ### Concrete rows used by witnesses and counterexamples -/

/-- A pending own-fleet trip used in concrete instances. -/
def wTrip1 : TripRow :=
  { tlhsNo := "T-100".data, loadingDate := 739007, vehicleNo := "KA01AB1234".data,
    route := "BANGALORE - DELHI".data, tripStatus := "Loaded".data, lrNos := some [],
    displayParty := some "Honda Cars India Ltd - Tapukera".data, carQty := 7,
    freight := 90000 }

/-- A second pending own-fleet trip used in concrete instances. -/
def wTrip2 : TripRow :=
  { tlhsNo := "T-200".data, loadingDate := 739008, vehicleNo := "KA02CD5678".data,
    route := "PUNE - CHENNAI".data, tripStatus := "Loaded".data, lrNos := none,
    displayParty := some "Market Load".data, carQty := 4, freight := 50000 }

/-- A consignment record whose date+vehicle key matches `wTrip1`. -/
def wCN1 : CNRecord :=
  { cnDate := some 739007, vehicleNo := some "ka01ab1234 ".data,
    route := some "BANGALORE - DELHI".data, tlNo := some "T-100".data,
    vehicleType := some "Own Vehicle".data }

/-- The trip of the claim-C1 counterexample: route `A`, vehicle `B_C`. -/
def cxTrip : TripRow :=
  { tlhsNo := "T-1".data, loadingDate := 50, vehicleNo := "B_C".data, route := "A".data,
    tripStatus := "Loaded".data, lrNos := some [], displayParty := some "P".data,
    carQty := 1, freight := 0 }

/-- The consignment record of the claim-C1 counterexample: route `A_B`,
vehicle `C`, blank linked trip number, vehicle class `Own Vehicle`, no
date (so only the route+vehicle pass can involve it). -/
def cxCN : CNRecord :=
  { cnDate := none, vehicleNo := some "C".data, route := some "A_B".data,
    tlNo := some [], vehicleType := some "Own Vehicle".data }

/-! ### Claim theorems -/

/-- C1 (counterexample): the pending-CN output does not always equal the
candidate set minus the two pair-matched sets as the claim states them.
The code matches on the concatenated `route + '_' + vehicle` string, so the
trip with route `A` and vehicle `B_C` is matched by the consignment record
with route `A_B` and vehicle `C` and is dropped from the pending output,
while under the claim's pair matching no consignment record matches and
the trip stays pending. -/
theorem pending_cn_pair_match_counterexample :
    pendingCN [cxTrip] [cxCN] [] 100 = [] ∧
      claimPending [cxTrip] [cxCN] [] 100 = [cxTrip] := by
  constructor
  · decide
  · decide

/-- C1 (amended): for every own-fleet trip set, consignment set, exclusion
set and current date, provided no trip route and no consignment route
contains an underscore after upper-casing and trimming, the pending-CN
output equals the candidate set (status `Loaded`, null/blank LR number,
loading date at least 3 days old, trip number not excluded) minus the trips
whose (loading date, upper-cased trimmed vehicle number) pair matches a
consignment record carrying a date and a vehicle number, minus the trips
whose (upper-cased trimmed route, vehicle number) pair matches a
consignment record with a null/blank linked trip number, vehicle class
`Own Vehicle`, and a non-blank route and vehicle number. -/
theorem pending_cn_equals_spec (trips : List TripRow) (cns : List CNRecord)
    (excluded : List Str) (today : Nat)
    (hR : ∀ t ∈ trips, '_' ∉ norm t.route)
    (hC : ∀ c ∈ cns, ∀ r, c.route = some r → '_' ∉ norm r) :
    pendingCN trips cns excluded today = specPending trips cns excluded today := by
  rw [pendingCN_eq, List.filter_filter, List.filter_filter]
  unfold specPending
  apply List.filter_congr
  intro t ht
  rw [decide_eq_decide.mpr (mem_method1_iff cns t),
    decide_eq_decide.mpr (mem_method2_iff cns t (hR t ht) hC)]
  cases candidateFilter today excluded t <;> cases decide (claimMatch1 cns t) <;>
    cases decide (specMatch2 cns t) <;> rfl

/-- Witness for C1 (amended): a concrete instance with an underscore-free
trip and consignment set; the matched trip is dropped, the unmatched trip
stays pending, on both sides. -/
theorem pending_cn_equals_spec_witness :
    pendingCN [wTrip1, wTrip2] [wCN1] ["T-300".data] 739020 =
      specPending [wTrip1, wTrip2] [wCN1] ["T-300".data] 739020 :=
  pending_cn_equals_spec [wTrip1, wTrip2] [wCN1] ["T-300".data] 739020
    (by decide) (by decide)

/-- C8: adding a trip number to the exclusion set removes exactly that trip
number from the pending-CN output and never adds entries: the pending set
with `t` excluded equals the previous pending set minus `t`, and is in
particular a subset of the previous pending set. -/
theorem pending_cn_exclusion_monotone (trips : List TripRow) (cns : List CNRecord)
    (E : List Str) (t : Str) (today : Nat) :
    pendingCN trips cns (t :: E) today =
      (pendingCN trips cns E today).filter (fun tr => !decide (tr.tlhsNo = t)) ∧
    ∀ tr ∈ pendingCN trips cns (t :: E) today, tr ∈ pendingCN trips cns E today := by
  have hmain : pendingCN trips cns (t :: E) today =
      (pendingCN trips cns E today).filter (fun tr => !decide (tr.tlhsNo = t)) := by
    rw [pendingCN_eq, pendingCN_eq]
    have h1 : trips.filter (candidateFilter today (t :: E)) =
        (trips.filter (candidateFilter today E)).filter
          (fun x => !decide (x.tlhsNo = t)) := by
      rw [List.filter_filter]
      apply List.filter_congr
      intro x _
      rw [candidateFilter_cons]
      cases candidateFilter today E x <;> cases decide (x.tlhsNo = t) <;> rfl
    rw [h1,
      List.filter_comm (fun tr => !decide (tripKey1 tr ∈ method1Keys cns))
        (fun x => !decide (x.tlhsNo = t)),
      List.filter_comm (fun tr => !decide (tripKey2 tr ∈ method2Keys cns))
        (fun x => !decide (x.tlhsNo = t))]
  refine ⟨hmain, ?_⟩
  intro tr htr
  rw [hmain] at htr
  exact (List.mem_filter.mp htr).1

/-- Witness for C8: excluding `T-200` drops exactly that trip, and the
remaining pending trip `T-100` was already pending before. -/
theorem pending_cn_exclusion_monotone_witness :
    pendingCN [wTrip1, wTrip2] [] ("T-200".data :: []) 739020 =
      (pendingCN [wTrip1, wTrip2] [] [] 739020).filter
        (fun tr => !decide (tr.tlhsNo = "T-200".data)) ∧
    wTrip1 ∈ pendingCN [wTrip1, wTrip2] [] [] 739020 :=
  ⟨(pending_cn_exclusion_monotone [wTrip1, wTrip2] [] [] "T-200".data 739020).1,
   (pending_cn_exclusion_monotone [wTrip1, wTrip2] [] [] "T-200".data 739020).2
     wTrip1 (by decide)⟩

/-- The pending-CN output is contained in its input frame. -/
theorem pendingCN_subset (trips : List TripRow) (cns : List CNRecord)
    (excluded : List Str) (today : Nat) :
    ∀ t ∈ pendingCN trips cns excluded today, t ∈ trips := by
  intro t ht
  rw [pendingCN_eq] at ht
  exact (List.mem_filter.mp
    ((List.mem_filter.mp ((List.mem_filter.mp ht).1)).1)).1

/-- C9: pending-CN detection runs on the month- and party-filtered frame,
so every reported pending trip has its loading date inside the selected
month, and when a specific party (not the `All` sentinel) is selected the
trip belongs to that display party; a trip of another month or another
party is never reported pending. -/
theorem pending_cn_within_month_and_party (df : List TripRow) (cns : List CNRecord)
    (excluded : List Str) (today monthStart monthEnd : Nat) (party : Str) :
    ∀ t ∈ pendingCN (monthPartyFilter df monthStart monthEnd party) cns excluded today,
      monthStart ≤ t.loadingDate ∧ t.loadingDate ≤ monthEnd ∧
        (party ≠ "All".data → t.displayParty = some party) := by
  intro t ht
  have hsub := pendingCN_subset _ cns excluded today t ht
  unfold monthPartyFilter at hsub
  by_cases hall : party = "All".data
  · rw [if_pos hall] at hsub
    obtain ⟨-, hb⟩ := List.mem_filter.mp hsub
    rw [Bool.and_eq_true] at hb
    exact ⟨of_decide_eq_true hb.1, of_decide_eq_true hb.2,
      fun hne => absurd hall hne⟩
  · rw [if_neg hall] at hsub
    obtain ⟨hm, hp⟩ := List.mem_filter.mp hsub
    obtain ⟨-, hb⟩ := List.mem_filter.mp hm
    rw [Bool.and_eq_true] at hb
    exact ⟨of_decide_eq_true hb.1, of_decide_eq_true hb.2,
      fun _ => of_decide_eq_true hp⟩

/-- Witness for C9: with the month window 739000-739030 and the party
filter set to `wTrip1`'s display party, the reported pending trip `wTrip1`
is inside the window and belongs to the selected party. -/
theorem pending_cn_within_month_and_party_witness :
    739000 ≤ wTrip1.loadingDate ∧ wTrip1.loadingDate ≤ 739030 ∧
      ("Honda Cars India Ltd - Tapukera".data ≠ "All".data →
        wTrip1.displayParty = some "Honda Cars India Ltd - Tapukera".data) :=
  pending_cn_within_month_and_party [wTrip2, wTrip1] [] [] 739020 739000 739030
    "Honda Cars India Ltd - Tapukera".data wTrip1 (by decide)

/-- The zone-match condition as claim C3 words it: some gazetteer entry is
contained in the (upper-cased trimmed) city, or the city is contained in
the entry. -/
def zoneClaimMatch (entries : List Str) (u : Str) : Prop :=
  ∃ e ∈ entries, substr e u = true ∨ substr u e = true

theorem zoneClaimMatch_iff (entries : List Str) (u : Str) :
    zoneClaimMatch entries u ↔ zoneAny entries u = true := by
  unfold zoneClaimMatch zoneAny
  rw [List.any_eq_true]
  constructor
  · rintro ⟨e, he, h | h⟩ <;> exact ⟨e, he, by simp [h]⟩
  · rintro ⟨e, he, h⟩
    rw [Bool.or_eq_true] at h
    exact ⟨e, he, h⟩

instance decZoneClaimMatch (entries : List Str) (u : Str) :
    Decidable (zoneClaimMatch entries u) := by
  unfold zoneClaimMatch; infer_instance

/-- C3: zone classification returns `Unknown` for a null or empty city;
otherwise it scans the North, East, West, South gazetteer lists in that
fixed priority order and returns the first zone with an entry that is
contained in the upper-cased trimmed city or that contains the city,
falling back to `Other`; in particular an input matching both a North
entry and a South entry resolves to North. -/
theorem get_zone_priority_spec :
    get_zone none = "Unknown".data ∧ get_zone (some []) = "Unknown".data ∧
    ∀ s, s ≠ [] →
      (zoneClaimMatch north_cities (trim (upper s)) →
        get_zone (some s) = "North".data) ∧
      (¬ zoneClaimMatch north_cities (trim (upper s)) →
        zoneClaimMatch east_cities (trim (upper s)) →
        get_zone (some s) = "East".data) ∧
      (¬ zoneClaimMatch north_cities (trim (upper s)) →
        ¬ zoneClaimMatch east_cities (trim (upper s)) →
        zoneClaimMatch west_cities (trim (upper s)) →
        get_zone (some s) = "West".data) ∧
      (¬ zoneClaimMatch north_cities (trim (upper s)) →
        ¬ zoneClaimMatch east_cities (trim (upper s)) →
        ¬ zoneClaimMatch west_cities (trim (upper s)) →
        zoneClaimMatch south_cities (trim (upper s)) →
        get_zone (some s) = "South".data) ∧
      (¬ zoneClaimMatch north_cities (trim (upper s)) →
        ¬ zoneClaimMatch east_cities (trim (upper s)) →
        ¬ zoneClaimMatch west_cities (trim (upper s)) →
        ¬ zoneClaimMatch south_cities (trim (upper s)) →
        get_zone (some s) = "Other".data) := by
  refine ⟨rfl, rfl, ?_⟩
  intro s hs
  simp only [zoneClaimMatch_iff, Bool.not_eq_true]
  refine ⟨?_, ?_, ?_, ?_, ?_⟩
  · intro h1
    simp [get_zone, hs, h1]
  · intro h1 h2
    simp [get_zone, hs, h1, h2]
  · intro h1 h2 h3
    simp [get_zone, hs, h1, h2, h3]
  · intro h1 h2 h3 h4
    simp [get_zone, hs, h1, h2, h3, h4]
  · intro h1 h2 h3 h4
    simp [get_zone, hs, h1, h2, h3, h4]

set_option maxRecDepth 40000

/-- Witness for C3: `HARIDWAR SALEM` matches a North entry and a South
entry and resolves to North; `KOLKATA`, `MUMBAI`, `CHENNAI` resolve to
their zones; `XYZZY` matches nothing and resolves to Other. -/
theorem get_zone_priority_spec_witness :
    get_zone (some "HARIDWAR SALEM".data) = "North".data ∧
    get_zone (some "KOLKATA".data) = "East".data ∧
    get_zone (some "MUMBAI".data) = "West".data ∧
    get_zone (some "CHENNAI".data) = "South".data ∧
    get_zone (some "XYZZY".data) = "Other".data :=
  ⟨(get_zone_priority_spec.2.2 "HARIDWAR SALEM".data (by decide)).1 (by decide),
   (get_zone_priority_spec.2.2 "KOLKATA".data (by decide)).2.1 (by decide) (by decide),
   (get_zone_priority_spec.2.2 "MUMBAI".data (by decide)).2.2.1 (by decide) (by decide)
     (by decide),
   (get_zone_priority_spec.2.2 "CHENNAI".data (by decide)).2.2.2.1 (by decide) (by decide)
     (by decide) (by decide),
   (get_zone_priority_spec.2.2 "XYZZY".data (by decide)).2.2.2.2 (by decide) (by decide)
     (by decide) (by decide)⟩

/-- Every tag a rule-table scan can produce is a table tag or the default. -/
theorem scanRules_mem_enum (table : List (List Str × Str)) (u : Str)
    (h : ∀ pr ∈ table, pr.2 ∈ categoryEnum) : scanRules table u ∈ categoryEnum := by
  induction table with
  | nil =>
    simp only [scanRules]
    decide
  | cons hd tl ih =>
    obtain ⟨kws, tag⟩ := hd
    simp only [scanRules]
    split
    · exact h (kws, tag) (List.mem_cons_self _ _)
    · exact ih fun pr hpr => h pr (List.mem_cons_of_mem _ hpr)

set_option maxHeartbeats 2000000 in
/-- The source's if/elif category cascade agrees with the first-match-wins
scan of the ordered keyword rule table on every non-empty name. -/
theorem get_client_category_eq_scan (s : Str) (hs : s ≠ []) :
    get_client_category (some s) = scanRules categoryRules (upper s) := by
  simp only [get_client_category, if_neg hs, categoryRules, scanRules,
    List.map_cons, List.map_nil, List.any_cons, List.any_nil,
    Bool.or_false, Bool.or_assoc]

/-- C4: `get_client_category` is total and deterministic: every input,
null and empty included, yields exactly one tag of the fixed category
enumeration; a null or empty input yields `Other`; and on any other input
the result is the first-match-wins scan of the ordered keyword rule table
over the upper-cased name (returning `Other` when no rule matches). -/
theorem get_client_category_total_spec (p : Option Str) :
    get_client_category p ∈ categoryEnum ∧
    (p = none ∨ p = some [] → get_client_category p = "Other".data) ∧
    ∀ s, p = some s → s ≠ [] →
      get_client_category p = scanRules categoryRules (upper s) := by
  refine ⟨?_, ?_, fun s hp hs => by rw [hp, get_client_category_eq_scan s hs]⟩
  · match p with
    | none => decide
    | some s =>
      by_cases hs : s = []
      · subst hs; decide
      · rw [get_client_category_eq_scan s hs]
        exact scanRules_mem_enum categoryRules (upper s) (by decide)
  · rintro (rfl | rfl) <;> decide

/-- Witness for C4: the classifier at concrete inputs agreeing with the
enumeration, the null default and the rule-table scan. -/
theorem get_client_category_total_spec_witness :
    get_client_category (some "TATA MOTORS".data) ∈ categoryEnum ∧
    get_client_category none = "Other".data ∧
    get_client_category (some "TATA MOTORS".data) =
      scanRules categoryRules (upper "TATA MOTORS".data) :=
  ⟨(get_client_category_total_spec (some "TATA MOTORS".data)).1,
   (get_client_category_total_spec none).2.1 (Or.inl rfl),
   (get_client_category_total_spec (some "TATA MOTORS".data)).2.2
     "TATA MOTORS".data rfl (by decide)⟩

/-- C5 (counterexample): for the Mahindra billing party with origin
`Chennai` the canonical party is `MAHINDRA LOGISTICS LTD`, which is not
the billing-party name unchanged - the trailing period is dropped. -/
theorem mahindra_chennai_not_unchanged :
    get_vendor_client_mapping (some "MAHINDRA LOGISTICS LTD.".data)
        (some "Chennai".data) = some "MAHINDRA LOGISTICS LTD".data ∧
      "MAHINDRA LOGISTICS LTD".data ≠ "MAHINDRA LOGISTICS LTD.".data := by
  constructor
  · decide
  · decide

/-- C5 (amended): for the vendor billing party `MAHINDRA LOGISTICS LTD.`
the canonical party is origin-dependent, tested in the order Chakan,
Nashik, Haridwar on the upper-cased trimmed origin: a matching origin
yields the respective regional name, and any other origin yields the fixed
name `MAHINDRA LOGISTICS LTD` (the billing-party name without its trailing
period), not the billing-party string unchanged. -/
theorem mahindra_origin_split (origin : Option Str) :
    (substr "CHAKAN".data (upper (trim (origin.getD []))) = true →
      get_vendor_client_mapping (some "MAHINDRA LOGISTICS LTD.".data) origin =
        some "Mahindra Logistics Ltd - Chakan".data) ∧
    (substr "CHAKAN".data (upper (trim (origin.getD []))) = false →
      substr "NASHIK".data (upper (trim (origin.getD []))) = true →
      get_vendor_client_mapping (some "MAHINDRA LOGISTICS LTD.".data) origin =
        some "Mahindra Logistics Ltd - Nashik".data) ∧
    (substr "CHAKAN".data (upper (trim (origin.getD []))) = false →
      substr "NASHIK".data (upper (trim (origin.getD []))) = false →
      substr "HARIDWAR".data (upper (trim (origin.getD []))) = true →
      get_vendor_client_mapping (some "MAHINDRA LOGISTICS LTD.".data) origin =
        some "Mahindra Logistics Ltd - Haridwar".data) ∧
    (substr "CHAKAN".data (upper (trim (origin.getD []))) = false →
      substr "NASHIK".data (upper (trim (origin.getD []))) = false →
      substr "HARIDWAR".data (upper (trim (origin.getD []))) = false →
      get_vendor_client_mapping (some "MAHINDRA LOGISTICS LTD.".data) origin =
        some "MAHINDRA LOGISTICS LTD".data) := by
  refine ⟨?_, ?_, ?_, ?_⟩ <;>
    · intros
      simp only [get_vendor_client_mapping, if_neg (by decide :
          ¬("MAHINDRA LOGISTICS LTD.".data : Str) = []),
        if_pos (rfl : ("MAHINDRA LOGISTICS LTD.".data : Str) =
          "MAHINDRA LOGISTICS LTD.".data)]
      simp_all

/-- Witness for C5 (amended): the four origin cases at concrete origins. -/
theorem mahindra_origin_split_witness :
    get_vendor_client_mapping (some "MAHINDRA LOGISTICS LTD.".data)
        (some "Chakan, Pune".data) = some "Mahindra Logistics Ltd - Chakan".data ∧
    get_vendor_client_mapping (some "MAHINDRA LOGISTICS LTD.".data)
        (some "Nashik Road".data) = some "Mahindra Logistics Ltd - Nashik".data ∧
    get_vendor_client_mapping (some "MAHINDRA LOGISTICS LTD.".data)
        (some "Haridwar".data) = some "Mahindra Logistics Ltd - Haridwar".data ∧
    get_vendor_client_mapping (some "MAHINDRA LOGISTICS LTD.".data)
        (some "Chennai".data) = some "MAHINDRA LOGISTICS LTD".data :=
  ⟨(mahindra_origin_split (some "Chakan, Pune".data)).1 (by decide),
   (mahindra_origin_split (some "Nashik Road".data)).2.1 (by decide) (by decide),
   (mahindra_origin_split (some "Haridwar".data)).2.2.1 (by decide) (by decide)
     (by decide),
   (mahindra_origin_split (some "Chennai".data)).2.2.2 (by decide) (by decide)
     (by decide)⟩

/-- C7 (counterexample): `normalize_party_name` is not an exact-match
table lookup: the name `MY JOHN DEERE TRANSPORT` equals no key of the
fixed alias table (after trimming and upper-casing) yet is rewritten to
the John Deere canonical name rather than returned unchanged, because the
source applies a substring rule for `JOHN DEERE`. -/
theorem normalize_party_name_not_exact_match :
    normalize_party_name (some "MY JOHN DEERE TRANSPORT".data) =
      some "John Deere India Private Limited".data ∧
    trim (upper "MY JOHN DEERE TRANSPORT".data) ∉ claimAliasKeys ∧
    some "MY JOHN DEERE TRANSPORT".data ≠
      some "John Deere India Private Limited".data := by
  refine ⟨?_, ?_, ?_⟩
  · decide
  · decide
  · decide

/-- C7 (amended): `normalize_party_name` leaves a null or empty name
unchanged; it maps a name whose trimmed upper-cased form equals one of the
market-load aliases to `Market Load` and one equal to the Spinny `UP`
alias to the Spinny canonical name (exact matches, case-insensitive after
trimming); it additionally maps any remaining name that merely contains
`JOHN DEERE` to the John Deere canonical name (a substring rule, not an
exact match); every other name is returned unchanged. -/
theorem normalize_party_name_spec :
    normalize_party_name none = none ∧
    normalize_party_name (some []) = some [] ∧
    ∀ s, s ≠ [] →
      (trim (upper s) ∈ market_load_parties.map upper →
        normalize_party_name (some s) = some "Market Load".data) ∧
      (trim (upper s) ∉ market_load_parties.map upper →
        trim (upper s) = "VALUEDRIVE TECHNOLOGIES PRIVATE LIMITED(SPINNY) UP".data →
        normalize_party_name (some s) =
          some "VALUEDRIVE TECHNOLOGIES PRIVATE LIMITED(SPINNY)".data) ∧
      (trim (upper s) ∉ market_load_parties.map upper →
        trim (upper s) ≠ "VALUEDRIVE TECHNOLOGIES PRIVATE LIMITED(SPINNY) UP".data →
        substr "JOHN DEERE".data (trim (upper s)) = true →
        normalize_party_name (some s) = some "John Deere India Private Limited".data) ∧
      (trim (upper s) ∉ market_load_parties.map upper →
        trim (upper s) ≠ "VALUEDRIVE TECHNOLOGIES PRIVATE LIMITED(SPINNY) UP".data →
        substr "JOHN DEERE".data (trim (upper s)) = false →
        normalize_party_name (some s) = some s) := by
  refine ⟨rfl, rfl, ?_⟩
  intro s hs
  refine ⟨?_, ?_, ?_, ?_⟩ <;>
    · intros
      simp only [normalize_party_name, if_neg hs]
      simp_all

/-- Witness for C7 (amended): the four rule cases at concrete names. -/
theorem normalize_party_name_spec_witness :
    normalize_party_name (some " golden transport ".data) = some "Market Load".data ∧
    normalize_party_name
        (some "VALUEDRIVE TECHNOLOGIES PRIVATE LIMITED(SPINNY) UP".data) =
      some "VALUEDRIVE TECHNOLOGIES PRIVATE LIMITED(SPINNY)".data ∧
    normalize_party_name (some "John Deere Seeding Group".data) =
      some "John Deere India Private Limited".data ∧
    normalize_party_name (some "ACME CARRIERS".data) = some "ACME CARRIERS".data :=
  ⟨(normalize_party_name_spec.2.2 " golden transport ".data (by decide)).1 (by decide),
   (normalize_party_name_spec.2.2
       "VALUEDRIVE TECHNOLOGIES PRIVATE LIMITED(SPINNY) UP".data (by decide)).2.1
     (by decide) (by decide),
   (normalize_party_name_spec.2.2 "John Deere Seeding Group".data (by decide)).2.2.1
     (by decide) (by decide) (by decide),
   (normalize_party_name_spec.2.2 "ACME CARRIERS".data (by decide)).2.2.2
     (by decide) (by decide) (by decide)⟩

/-! ### Summary lemmas and claims C2, C6, C10 -/

/-- A vendor row of the Scenario-C shape, used in concrete instances. -/
def wVend1 : VendorRow :=
  { billingParty := some "Glovis India Pvt Ltd - KIA".data, origin := none,
    cnDate := some 739007, carQty := 5, freight := 25000 }

/-- A vendor row with a missing billing party. -/
def wVendNull : VendorRow :=
  { billingParty := none, origin := some "Pune".data, cnDate := some 739007,
    carQty := 3, freight := 11111 }

/-- `dict.get` returns the default on a key absent from the table. -/
theorem dictGet_of_not_mem (d : List (Str × Str)) (k : Str) (dflt : Str)
    (h : k ∉ d.map Prod.fst) : dictGet d k dflt = dflt := by
  induction d with
  | nil => rfl
  | cons a rest ih =>
    obtain ⟨x, y⟩ := a
    have hxk : k ≠ x := fun he =>
      h (List.mem_map.mpr ⟨(x, y), List.mem_cons_self _ _, he.symm⟩)
    have hrest : k ∉ rest.map Prod.fst := by
      intro hm
      obtain ⟨pr, hpr, hfst⟩ := List.mem_map.mp hm
      exact h (List.mem_map.mpr ⟨pr, List.mem_cons_of_mem _ hpr, hfst⟩)
    rw [dictGet, if_neg hxk, ih hrest]

/-- The vendor aggregates depend on the vendor rows only through the
mapped-party list. -/
theorem buildSummary_congr_mapped (own : List TripRow) (v1 v2 : List VendorRow)
    (h : mappedVendor v1 = mappedVendor v2) :
    buildSummary own v1 = buildSummary own v2 := by
  simp only [buildSummary, vendKeys, vSumCars, vSumFreight, h]

/-- C10: a vendor row whose billing party is null or empty maps to `None`,
is dropped by the mapped-party filter, and therefore contributes to no
vendor aggregate of the client-wise summary - unlike an unrecognised
non-empty billing party, which is bucketed as `Market Load`. -/
theorem vendor_null_billing_dropped :
    (∀ origin, get_vendor_client_mapping none origin = none ∧
      get_vendor_client_mapping (some []) origin = none) ∧
    (∀ (pre post : List VendorRow) (r : VendorRow),
      r.billingParty = none ∨ r.billingParty = some [] →
      mappedVendor (pre ++ r :: post) = mappedVendor (pre ++ post) ∧
      ∀ own, buildSummary own (pre ++ r :: post) = buildSummary own (pre ++ post)) ∧
    (∀ bp origin, bp ≠ [] → bp ≠ "MAHINDRA LOGISTICS LTD.".data →
      bp ∉ vendor_mappings.map Prod.fst →
      get_vendor_client_mapping (some bp) origin = some "Market Load".data) := by
  refine ⟨?_, ?_, ?_⟩
  · intro origin
    exact ⟨rfl, by simp [get_vendor_client_mapping]⟩
  · intro pre post r hb
    have hf : (get_vendor_client_mapping r.billingParty r.origin).map
        (fun p => (p, r)) = none := by
      rcases hb with h | h <;> simp [h, get_vendor_client_mapping]
    have hm : mappedVendor (pre ++ r :: post) = mappedVendor (pre ++ post) := by
      unfold mappedVendor
      rw [List.filterMap_append, List.filterMap_append, List.filterMap_cons_none]
      exact hf
    exact ⟨hm, fun own => buildSummary_congr_mapped own _ _ hm⟩
  · intro bp origin h1 h2 h3
    simp only [get_vendor_client_mapping, if_neg h1, if_neg h2,
      dictGet_of_not_mem vendor_mappings bp "Market Load".data h3]

/-- Witness for C10: the null-billing row between two rows contributes
nothing, and a concrete unrecognised billing party maps to `Market Load`. -/
theorem vendor_null_billing_dropped_witness :
    get_vendor_client_mapping none (some "Pune".data) = none ∧
    mappedVendor ([wVend1] ++ wVendNull :: []) = mappedVendor ([wVend1] ++ []) ∧
    buildSummary [wTrip1] ([wVend1] ++ wVendNull :: []) =
      buildSummary [wTrip1] ([wVend1] ++ []) ∧
    get_vendor_client_mapping (some "SOME UNKNOWN CARRIER".data) none =
      some "Market Load".data :=
  ⟨(vendor_null_billing_dropped.1 (some "Pune".data)).1,
   (vendor_null_billing_dropped.2.1 [wVend1] [] wVendNull (Or.inl rfl)).1,
   (vendor_null_billing_dropped.2.1 [wVend1] [] wVendNull (Or.inl rfl)).2 [wTrip1],
   vendor_null_billing_dropped.2.2 "SOME UNKNOWN CARRIER".data none (by decide)
     (by decide) (by decide)⟩

/-- C2: the unified client-wise summary's party set equals the union of
the own-side party set and the mapped vendor-side party set - no party is
lost and a vendor-only party still appears as a row; a party missing on
one side gets zero for that side's figures, and every row's totals equal
own plus vendor. -/
theorem summary_union_spec (own : List TripRow) (vend : List VendorRow) :
    (∀ p, (∃ r ∈ buildSummary own vend, r.party = p) ↔
      (p ∈ ownKeys own ∨ p ∈ vendKeys vend)) ∧
    (∀ r ∈ buildSummary own vend,
      (r.party ∉ ownKeys own → r.trips = 0 ∧ r.ownCars = 0 ∧ r.ownFreight = 0) ∧
      (r.party ∉ vendKeys vend → r.vendCars = 0 ∧ r.vendFreight = 0) ∧
      r.totalCars = r.ownCars + r.vendCars ∧
      r.totalFreight = r.ownFreight + r.vendFreight) := by
  constructor
  · intro p
    constructor
    · rintro ⟨r, hr, rfl⟩
      simp only [buildSummary, List.mem_map, List.mem_append] at hr
      obtain ⟨r0, hr0, rfl⟩ := hr
      rcases hr0 with h | h
      · obtain ⟨q, hq, rfl⟩ := h
        exact Or.inl hq
      · obtain ⟨q, hq, rfl⟩ := h
        exact Or.inr (List.mem_of_mem_filter hq)
    · intro hp
      by_cases hpo : p ∈ ownKeys own
      · refine ⟨totalize (SummaryRow.mk p (countOwn own p) (sumCars own p)
          (sumFreight own p)
          (if p ∈ vendKeys vend then vSumCars vend p else 0)
          (if p ∈ vendKeys vend then vSumFreight vend p else 0) 0 0 0 0), ?_, rfl⟩
        simp only [buildSummary, List.mem_map, List.mem_append]
        exact ⟨_, Or.inl ⟨p, hpo, rfl⟩, rfl⟩
      · have hpv : p ∈ vendKeys vend := hp.resolve_left hpo
        refine ⟨totalize (SummaryRow.mk p 0 0 0 (vSumCars vend p)
          (vSumFreight vend p) 0 0 0 0), ?_, rfl⟩
        simp only [buildSummary, List.mem_map, List.mem_append]
        refine ⟨_, Or.inr ⟨p, ?_, rfl⟩, rfl⟩
        exact List.mem_filter.mpr ⟨hpv, by simp [hpo]⟩
  · intro r hr
    simp only [buildSummary, List.mem_map, List.mem_append] at hr
    obtain ⟨r0, hr0, rfl⟩ := hr
    rcases hr0 with h | h
    · obtain ⟨q, hq, rfl⟩ := h
      refine ⟨fun hno => absurd hq hno, fun hnv => ⟨if_neg hnv, if_neg hnv⟩, rfl, rfl⟩
    · obtain ⟨q, hq, rfl⟩ := h
      have hqv : q ∈ vendKeys vend := List.mem_of_mem_filter hq
      refine ⟨fun _ => ⟨rfl, rfl, rfl⟩, fun hnv => absurd hqv hnv, rfl, rfl⟩

/-- The vendor-only summary row of the C2 witness instance. -/
def wGlovisRow : SummaryRow :=
  ⟨"Glovis India Pvt Ltd - KIA".data, 0, 0, 0, 5, 25000, 5, 25000, 0, 0⟩

/-- Witness for C2: with one own trip (Honda) and one vendor consignment
(Glovis), the vendor-only Glovis party appears as a summary row, its
own-side figures are zero, and its totals are own plus vendor. -/
theorem summary_union_spec_witness :
    (∃ r ∈ buildSummary [wTrip1] [wVend1],
      r.party = "Glovis India Pvt Ltd - KIA".data) ∧
    (wGlovisRow.trips = 0 ∧ wGlovisRow.ownCars = 0 ∧ wGlovisRow.ownFreight = 0) ∧
    wGlovisRow.totalCars = wGlovisRow.ownCars + wGlovisRow.vendCars :=
  ⟨((summary_union_spec [wTrip1] [wVend1]).1 "Glovis India Pvt Ltd - KIA".data).mpr
     (Or.inr (by decide)),
   ((summary_union_spec [wTrip1] [wVend1]).2 wGlovisRow (by decide)).1 (by decide),
   ((summary_union_spec [wTrip1] [wVend1]).2 wGlovisRow (by decide)).2.2.1⟩

/-- A party with no group in a frame has zero group car sum. -/
theorem sumCars_eq_zero_of_not_key (rows : List TripRow) (p : Str)
    (h : p ∉ ownKeys rows) : sumCars rows p = 0 := by
  unfold sumCars
  rw [List.filter_eq_nil_iff.mpr ?_]
  · rfl
  · intro a ha hpa
    exact h (List.mem_dedup.mpr
      (List.mem_filterMap.mpr ⟨a, ha, of_decide_eq_true hpa⟩))

/-- A party with no group in a frame has zero group freight sum. -/
theorem sumFreight_eq_zero_of_not_key (rows : List TripRow) (p : Str)
    (h : p ∉ ownKeys rows) : sumFreight rows p = 0 := by
  unfold sumFreight
  rw [List.filter_eq_nil_iff.mpr ?_]
  · rfl
  · intro a ha hpa
    exact h (List.mem_dedup.mpr
      (List.mem_filterMap.mpr ⟨a, ha, of_decide_eq_true hpa⟩))

/-- C6: every row of the client-wise summary carries comparison figures
equal to recomputing the same per-party grouping over the caller-supplied
comparison date range, attached by party-name join; a party absent from
the comparison period gets zero. -/
theorem compare_columns_spec (df : List TripRow) (vend : List VendorRow)
    (curStart curEnd cmpStart cmpEnd : Nat) :
    ∀ r ∈ clientSummary df vend curStart curEnd cmpStart cmpEnd,
      r.cmpCars = sumCars (periodFilter df cmpStart cmpEnd) r.party ∧
      r.cmpFreight = sumFreight (periodFilter df cmpStart cmpEnd) r.party ∧
      (r.party ∉ ownKeys (periodFilter df cmpStart cmpEnd) →
        r.cmpCars = 0 ∧ r.cmpFreight = 0) := by
  intro r hr
  unfold clientSummary attachCompare at hr
  by_cases he : (periodFilter df cmpStart cmpEnd).isEmpty
  · rw [if_pos he] at hr
    obtain ⟨r0, hr0, rfl⟩ := List.mem_map.mp hr
    have hnil : periodFilter df cmpStart cmpEnd = [] := List.isEmpty_iff.mp he
    refine ⟨?_, ?_, fun _ => ⟨rfl, rfl⟩⟩
    · rw [hnil]
      simp [sumCars]
    · rw [hnil]
      simp [sumFreight]
  · rw [if_neg he] at hr
    obtain ⟨r0, hr0, rfl⟩ := List.mem_map.mp hr
    by_cases hk : r0.party ∈ ownKeys (periodFilter df cmpStart cmpEnd)
    · exact ⟨if_pos hk, if_pos hk, fun hno => absurd hk hno⟩
    · exact ⟨(if_neg hk).trans (sumCars_eq_zero_of_not_key _ _ hk).symm,
        (if_neg hk).trans (sumFreight_eq_zero_of_not_key _ _ hk).symm,
        fun _ => ⟨if_neg hk, if_neg hk⟩⟩

/-- The summary row of the C6 witness instance. -/
def wCmpRow : SummaryRow :=
  ⟨"Honda Cars India Ltd - Tapukera".data, 1, 7, 90000, 0, 0, 7, 90000, 7, 90000⟩

/-- Witness for C6: with one own trip and identical current and comparison
ranges, the row's comparison figures equal the recomputed group sums. -/
theorem compare_columns_spec_witness :
    wCmpRow.cmpCars = sumCars (periodFilter [wTrip1] 739000 739010) wCmpRow.party ∧
    wCmpRow.cmpFreight =
      sumFreight (periodFilter [wTrip1] 739000 739010) wCmpRow.party :=
  ⟨(compare_columns_spec [wTrip1] [] 739000 739010 739000 739010 wCmpRow
      (by decide)).1,
   (compare_columns_spec [wTrip1] [] 739000 739010 739000 739010 wCmpRow
      (by decide)).2.1⟩
